import Mathlib

/-!
Verification development for the Esti-Mate estimation pipeline.

This file gives a shallow embedding of the estimation pipeline of
`ai_modules/ai_estimator.py` and `ai_modules/learning_system.py` (plus the
relevant slice of the `/estimate` route in `app.py`), and proves or refutes
the frozen claims about it.

Modelling conventions:
- Python floats are modelled as exact rationals (`ℚ`); Python's `round(x, n)`
  is modelled as round-half-to-even on exact rationals (`pyround`), which
  agrees with Python on all values arising in the concrete computations of
  this development (none lie on a representation-shifted tie).
- Python dictionaries threaded through the pipeline are modelled as the
  `Estimate` structure with the fields the pipeline reads and writes; the
  `timestamp` / `estimated_date` fields (wall-clock time) are not modelled.
- Fallible Python code (statements that can raise `ZeroDivisionError` or
  `KeyError`) is modelled with `Option`: `none` means the Python code raises.
- Numeric-to-text interpolation inside accumulated `reasoning` strings is
  modelled by `rat_repr` (the rational's textual form); no claim inspects
  those numeric fragments, only the pure-text fragments, which are modelled
  verbatim.
- `str.lower()` is modelled by `lc` (ASCII lowercasing), and the Python
  substring test `pat in s` by `str_contains s pat`.
-/

/-- ASCII lowercasing of a string, modelling Python's `str.lower()` on the
ASCII inputs used by the pipeline. -/
def lc (s : String) : String := ⟨s.data.map Char.toLower⟩

/-- Whether the first character list is a prefix of the second. -/
def starts_with_chars : List Char → List Char → Bool
  | [], _ => true
  | _ :: _, [] => false
  | p :: ps, c :: cs => p == c && starts_with_chars ps cs

/-- Whether `pat` occurs as a contiguous sublist of the second argument. -/
def chars_contain (pat : List Char) : List Char → Bool
  | [] => starts_with_chars pat []
  | c :: cs => starts_with_chars pat (c :: cs) || chars_contain pat cs

/-- Python's substring test `pat in s`. -/
def str_contains (s pat : String) : Bool := chars_contain pat.data s.data

/-- Whether `text` contains at least one of the keywords, modelling
`any(keyword in text for keyword in kws)`. -/
def contains_any (text : String) (kws : List String) : Bool :=
  kws.any (fun k => str_contains text k)

/-- Number of keywords of `kws` contained in `text`, modelling
`sum(1 for keyword in kws if keyword in text)`. -/
def count_contained (text : String) (kws : List String) : ℕ :=
  (kws.filter (fun k => str_contains text k)).length

/-- Round-half-to-even of a rational to an integer, modelling Python's
banker's rounding of `round()` on exact values. -/
def rhe (x : ℚ) : ℤ :=
  let n := ⌊x⌋
  let r := x - (n : ℚ)
  if r < 1/2 then n
  else if 1/2 < r then n + 1
  else if n % 2 = 0 then n else n + 1

/-- Python's `round(x, d)` on exact rational values. -/
def pyround (x : ℚ) (d : ℕ) : ℚ := (rhe (x * (10 : ℚ) ^ d) : ℚ) / (10 : ℚ) ^ d

/-- Python's `round(x, 1)`. -/
def round1 (x : ℚ) : ℚ := pyround x 1

/-- Python's `round(x, 2)`. -/
def round2 (x : ℚ) : ℚ := pyround x 2

/-- Textual form of a rational, standing in for Python's float formatting in
f-strings (the claims never inspect these numeric fragments). -/
def rat_repr (q : ℚ) : String := toString q

/-- The five-phase hour breakdown carried by every estimate. -/
structure Phases where
  requirements : ℚ
  design : ℚ
  development : ℚ
  testing : ℚ
  deployment : ℚ
deriving DecidableEq, Repr

/-- Sum of the values of the phases mapping, `sum(phases.values())`. -/
def phases_sum (p : Phases) : ℚ :=
  p.requirements + p.design + p.development + p.testing + p.deployment

/-- Map a function over every phase entry. -/
def map_phases (f : ℚ → ℚ) (p : Phases) : Phases :=
  ⟨f p.requirements, f p.design, f p.development, f p.testing, f p.deployment⟩

/-- A linked JIRA issue as consumed by `_analyze_linked_ticket_complexity`
(the source dictionary keys are `key`, `type`, `summary`). -/
structure LinkedIssue where
  key : String
  link_type : String
  link_summary : String
deriving DecidableEq, Repr

/-- The JIRA ticket metadata record consumed by the pipeline.  `Option`
fields model the presence or absence of the corresponding dictionary keys;
the `.get` defaults are applied at each call site, mirroring the source.
Fields that only feed the language-model prompt (labels, fix versions,
comments) are not modelled: no pipeline stage reads them. -/
structure Jira where
  issue_type : Option String := none
  priority : Option String := none
  status : Option String := none
  summary : Option String := none
  description : Option String := none
  linked_issues : List LinkedIssue := []
  status_history : List String := []
  time_in_status : List (String × ℚ) := []
  time_spent_seconds : ℚ := 0
  uses_ai_tools : Bool := false
deriving DecidableEq, Repr

/-- The estimate record threaded through the PolicyEngine stages. -/
structure Estimate where
  total_hours : ℚ
  complexity : String
  reasoning : String := ""
  phases : Phases
  estimation_method : String := ""
  confidence : Option ℤ := none
  ai_confidence : Option ℤ := none
  learning_applied : Bool := false
  adjustment_factor : Option ℚ := none
deriving DecidableEq, Repr

/-- The sum-of-phases invariant, exactly. -/
def sum_matches_total (e : Estimate) : Prop := phases_sum e.phases = e.total_hours

/-- The sum-of-phases invariant within the spec's rounding tolerance 0.01. -/
def sum_within_tolerance (e : Estimate) : Prop :=
  |phases_sum e.phases - e.total_hours| ≤ 1/100

/-! ## Learning system (`ai_modules/learning_system.py`) -/

/-- One record of the append-only estimation history.  The `timestamp`
field (wall-clock time) is not modelled; no operation reads it. -/
structure HistoryRecord where
  jira_ticket : String
  description : String := ""
  estimated_hours : ℚ
  actual_hours : Option ℚ := none
  complexity : String
  phases : Phases := ⟨0, 0, 0, 0, 0⟩
  method : String := ""
  accuracy : Option ℚ := none
deriving DecidableEq, Repr

/-- History entries with a recorded `actual_hours`. -/
def completed_records (h : List HistoryRecord) : List HistoryRecord :=
  h.filter (fun r => r.actual_hours.isSome)

/-- Arithmetic mean as computed by `statistics.mean`. -/
def mean_q (l : List ℚ) : ℚ := l.sum / l.length

/-- `EstimationLearningSystem.record_estimation`: appends a record and
returns it.  `none` models the `ZeroDivisionError` raised by the accuracy
computation `abs(estimated - actual) / actual` when `actual_hours == 0`. -/
def record_estimation (h : List HistoryRecord) (jira_ticket : String)
    (estimated_hours : ℚ) (complexity : String) (ph : Phases) (method : String)
    (description : String) (actual_hours : Option ℚ) :
    Option (List HistoryRecord × HistoryRecord) :=
  match actual_hours with
  | none =>
    let r : HistoryRecord :=
      { jira_ticket, description, estimated_hours, complexity, method
        actual_hours := none
        phases := ph
        accuracy := none }
    some (h ++ [r], r)
  | some a =>
    if a = 0 then none
    else
      let r : HistoryRecord :=
        { jira_ticket, description, estimated_hours, complexity, method
          actual_hours := some a
          phases := ph
          accuracy := some (|estimated_hours - a| / a) }
      some (h ++ [r], r)

/-- Helper for `update_actual_hours`: the source scans `reversed(self.history)`
and updates the first (most recent) record whose ticket matches.  This helper
receives the history already reversed.  `none` models the `ZeroDivisionError`
raised when a match is found and `actual_hours == 0`. -/
def update_from_newest : List HistoryRecord → String → ℚ →
    Option (List HistoryRecord × Bool)
  | [], _, _ => some ([], false)
  | r :: rest, t, a =>
    if r.jira_ticket = t then
      if a = 0 then none
      else some ({ r with
                   actual_hours := some a
                   accuracy := some (|r.estimated_hours - a| / a) } :: rest, true)
    else
      match update_from_newest rest t a with
      | none => none
      | some (rest2, b) => some (r :: rest2, b)

/-- `EstimationLearningSystem.update_actual_hours`: back-fills actual hours on
the most recent record for the ticket, returning whether one was found. -/
def update_actual_hours (h : List HistoryRecord) (jira_ticket : String)
    (actual_hours : ℚ) : Option (List HistoryRecord × Bool) :=
  match update_from_newest h.reverse jira_ticket actual_hours with
  | none => none
  | some (l, b) => some (l.reverse, b)

/-- `EstimationLearningSystem.get_complexity_adjustments`: per-tier
actual/estimated ratio means, requiring at least 3 completed records overall
and at least 2 within a tier. -/
def get_complexity_adjustments (h : List HistoryRecord) : List (String × ℚ) :=
  let completed := completed_records h
  if completed.length < 3 then []
  else
    (["Low", "Medium", "High"] : List String).filterMap (fun cx =>
      let crecs := completed.filter (fun r => r.complexity == cx)
      if 2 ≤ crecs.length then
        some (cx, mean_q (crecs.map (fun r => r.actual_hours.getD 0 / r.estimated_hours)))
      else none)

/-- `EstimationLearningSystem.get_improved_estimate`: applies the learned
tier factor to total and phases when one exists for the estimate's
complexity, else returns the estimate unchanged. -/
def get_improved_estimate (e : Estimate) (h : List HistoryRecord) : Estimate :=
  let adjustments := get_complexity_adjustments h
  match adjustments.lookup e.complexity with
  | none => e
  | some factor =>
    { e with
      total_hours := round2 (e.total_hours * factor)
      phases := map_phases (fun x => round2 (x * factor)) e.phases
      learning_applied := true
      adjustment_factor := some factor }

/-! ## PolicyEngine stages (`ai_modules/ai_estimator.py`) -/

/-- Keywords of `_apply_blackduck_capping`. -/
def blackduck_keywords : List String :=
  ["blackduck", "security vulnerability", "cve", "dependency update", "version upgrade"]

/-- The lowercased `summary description` text of the ticket, `''` when no
metadata is present. -/
def jira_text_of (j : Option Jira) : String :=
  match j with
  | none => ""
  | some jd => lc ((jd.summary.getD "") ++ " " ++ (jd.description.getD ""))

/-- The BlackDuck detection of `_apply_blackduck_capping`: a keyword in the
lowercased reasoning, or in the lowercased ticket summary/description. -/
def is_blackduck_ticket (e : Estimate) (j : Option Jira) : Bool :=
  contains_any (lc e.reasoning) blackduck_keywords ||
    contains_any (jira_text_of j) blackduck_keywords

def qa_statuses : List String :=
  ["qa", "sit", "testing", "ready for testing", "in testing"]

def uat_statuses : List String :=
  ["uat", "user acceptance testing", "ready for deployment", "staging"]

def done_statuses : List String :=
  ["done", "closed", "resolved", "deployed", "production"]

def in_progress_statuses : List String :=
  ["in progress", "development", "coding", "in development"]

/-- `_apply_status_based_filtering`: zero out phases presumed complete for
the ticket's status and recompute the total as the sum of the phases.  When
no metadata or no `status` key is present the estimate passes through
unchanged. -/
def apply_status_based_filtering (e : Estimate) (j : Option Jira) : Estimate :=
  match j with
  | none => e
  | some jd =>
    match jd.status with
    | none => e
    | some st0 =>
      let st := lc st0
      let p := e.phases
      let pr : Phases × String :=
        if st ∈ qa_statuses then
          ({ p with requirements := 0, design := 0, development := 0 },
           " Ticket in " ++ st ++ " - only testing and deployment phases remain.")
        else if st ∈ uat_statuses then
          ({ p with requirements := 0, design := 0, development := 0, testing := 0 },
           " Ticket in " ++ st ++ " - only deployment phase remains.")
        else if st ∈ done_statuses then
          (⟨0, 0, 0, 0, 0⟩, " Ticket " ++ st ++ " - no remaining work.")
        else if st ∈ in_progress_statuses then
          ({ p with requirements := 0, design := 0 },
           " Ticket in " ++ st ++ " - requirements and design phases complete.")
        else (p, "")
      { e with
        phases := pr.1
        total_hours := phases_sum pr.1
        reasoning := e.reasoning ++ pr.2 }

/-- `_apply_blackduck_capping`: the 32-hour security cap, followed (always)
by status-based filtering. -/
def apply_blackduck_capping (e : Estimate) (j : Option Jira) : Estimate :=
  let e2 :=
    if is_blackduck_ticket e j then
      { e with
        total_hours := 32
        complexity := "Low"
        phases := ⟨4, 0, 24, 3, 1⟩
        reasoning := "BlackDuck security ticket - capped at 32 hours. " ++ e.reasoning }
    else e
  apply_status_based_filtering e2 j

/-- The default phase split used throughout the source:
`round(total * weight, 1)` with weights 0.15/0.20/0.48/0.15/0.02. -/
def default_phase_distribution (t : ℚ) : Phases :=
  ⟨round1 (t * (15/100)), round1 (t * (20/100)), round1 (t * (48/100)),
   round1 (t * (15/100)), round1 (t * (2/100))⟩

/-- `_apply_competitive_capping`: clamp totals above 150 to 120 and
redistribute phases (the `jira_data` parameter is unused in the source). -/
def apply_competitive_capping (e : Estimate) (_j : Option Jira) : Estimate :=
  if 150 < e.total_hours then
    { e with
      total_hours := 120
      complexity := "Medium"
      phases := default_phase_distribution 120
      reasoning := "Competitive capping applied (was " ++ rat_repr e.total_hours ++
        "h, now 120h). " ++ e.reasoning }
  else e

/-- Result of `_analyze_linked_ticket_complexity`.  The source's early
return (no linked issues) builds a dictionary without the
`num_dependencies` key; that absence is modelled with `none`. -/
structure DependencyAnalysis where
  complexity_score : ℚ
  additional_hours : ℚ
  rnote : String
  num_dependencies : Option ℕ
deriving Repr

/-- Enterprise keywords matched against each linked issue's summary. -/
def link_enterprise_keywords : List String :=
  ["iib", "sap", "mainframe", "integration", "api", "database"]

/-- One iteration of the linked-issue loop of
`_analyze_linked_ticket_complexity`, accumulating
(score, additional hours, detail strings). -/
def analyze_one_link (acc : ℚ × ℚ × List String) (li : LinkedIssue) :
    ℚ × ℚ × List String :=
  let lt := lc li.link_type
  let ls := lc li.link_summary
  let a1 : ℚ × ℚ × List String :=
    if lt ∈ (["blocks", "is blocked by"] : List String) then
      (acc.1 + 2, acc.2.1 + 8, acc.2.2 ++ ["Blocking dependency: " ++ li.key])
    else if lt ∈ (["depends on", "is depended on by"] : List String) then
      (acc.1 + 3/2, acc.2.1 + 5, acc.2.2 ++ ["Dependency: " ++ li.key])
    else if lt ∈ (["relates to", "is related to"] : List String) then
      (acc.1 + 1/2, acc.2.1 + 2, acc.2.2 ++ ["Related work: " ++ li.key])
    else acc
  if 2 ≤ count_contained ls link_enterprise_keywords then
    (a1.1 + 1, a1.2.1 + 4, a1.2.2 ++ ["Enterprise complexity in " ++ li.key])
  else a1

/-- `_analyze_linked_ticket_complexity`. -/
def analyze_linked_ticket_complexity (jd : Jira) : DependencyAnalysis :=
  match jd.linked_issues with
  | [] => ⟨0, 0, "", none⟩
  | _ =>
    let acc := jd.linked_issues.foldl analyze_one_link (0, 0, [])
    let num := jd.linked_issues.length
    let cap : ℚ := if num ≤ 2 then 15 else if num ≤ 4 then 25 else 40
    ⟨acc.1, min acc.2.1 cap, String.intercalate "; " acc.2.2, some num⟩

/-- Enterprise-system keywords matched against the main ticket text in
`_apply_intelligent_cross_dependency_analysis`. -/
def cross_enterprise_systems : List String :=
  ["iib", "ibm integration bus", "sap", "mainframe", "enterprise service bus"]

/-- The surcharge branch of `_apply_intelligent_cross_dependency_analysis`:
adds the (20-hour-capped) dependency overhead to `total_hours` only. -/
def cross_dependency_surcharge (e : Estimate) (dep : DependencyAnalysis) : Estimate :=
  let add := min dep.additional_hours 20
  { e with
    total_hours := round2 (e.total_hours + add)
    reasoning := e.reasoning ++ " Cross-dependency analysis: " ++ dep.rnote ++
      " (+" ++ rat_repr add ++ "h)." }

/-- `_apply_intelligent_cross_dependency_analysis`.  `none` models the
`KeyError` raised by `dependency_analysis['num_dependencies']` when the
ticket text matches an enterprise system but the analysis took its early
(no-linked-issues) return, whose dictionary lacks that key. -/
def apply_intelligent_cross_dependency_analysis (e : Estimate) (j : Option Jira) :
    Option Estimate :=
  match j with
  | none => some e
  | some jd =>
    let dep := analyze_linked_ticket_complexity jd
    let main_text := lc ((jd.summary.getD "") ++ " " ++ (jd.description.getD ""))
    if contains_any main_text cross_enterprise_systems then
      match dep.num_dependencies with
      | none => none
      | some n =>
        if n = 0 then
          some { e with
            total_hours := 104
            complexity := "Medium"
            phases := default_phase_distribution 104
            reasoning := e.reasoning ++
              " Enterprise ticket optimized for competitive accuracy (104 hours)." }
        else if 0 < dep.additional_hours then some (cross_dependency_surcharge e dep)
        else some e
    else if 0 < dep.additional_hours then some (cross_dependency_surcharge e dep)
    else some e

/-- Aggregates of `_analyze_jira_historical_patterns` that feed the
adjustment stage (the `patterns` strings are display-only and unmodelled). -/
structure HistoricalAnalysis where
  has_data : Bool
  time_in_analysis : ℚ
  time_in_development : ℚ
  time_in_testing : ℚ
  total_cycle_time : ℚ
  status_transitions : ℕ
  actual_time_spent : ℚ
deriving Repr

def analysis_statuses : List String :=
  ["analysis", "requirements", "design", "backlog", "to do"]

def development_statuses : List String :=
  ["in progress", "development", "coding", "in development"]

def testing_statuses : List String :=
  ["qa", "testing", "sit", "uat", "in testing", "ready for testing"]

/-- One iteration of the time-in-status bucketing loop. -/
def bucket_time (acc : ℚ × ℚ × ℚ) (entry : String × ℚ) : ℚ × ℚ × ℚ :=
  let sl := lc entry.1
  if contains_any sl analysis_statuses then (acc.1 + entry.2, acc.2.1, acc.2.2)
  else if contains_any sl development_statuses then (acc.1, acc.2.1 + entry.2, acc.2.2)
  else if contains_any sl testing_statuses then (acc.1, acc.2.1, acc.2.2 + entry.2)
  else acc

/-- `_analyze_jira_historical_patterns` (a present metadata record is
non-empty in every caller, hence truthy: `has_data` is true for `some`). -/
def analyze_jira_historical_patterns (j : Option Jira) : HistoricalAnalysis :=
  match j with
  | none => ⟨false, 0, 0, 0, 0, 0, 0⟩
  | some jd =>
    let acc := jd.time_in_status.foldl bucket_time (0, 0, 0)
    let spent := if 0 < jd.time_spent_seconds then jd.time_spent_seconds / 3600 else 0
    { has_data := true
      time_in_analysis := acc.1
      time_in_development := acc.2.1
      time_in_testing := acc.2.2
      total_cycle_time := (jd.time_in_status.map Prod.snd).sum
      status_transitions := jd.status_history.length
      actual_time_spent := spent }

/-- `_apply_historical_adjustment`: multiply total and phases by the rework
and extended-analysis factors when they differ from 1. -/
def apply_historical_adjustment (e : Estimate) (j : Option Jira) : Estimate :=
  match j with
  | none => e
  | some jd =>
    let h := analyze_jira_historical_patterns (some jd)
    let f1 : ℚ := if 5 < h.status_transitions then 1 * (115/100) else 1
    let parts1 : List String :=
      if 5 < h.status_transitions then
        ["High rework detected (" ++ toString h.status_transitions ++ " transitions, +15%)"]
      else []
    let parts2 : List String :=
      if 0 < h.actual_time_spent ∧
          (lc (jd.status.getD "")) ∈ (["in progress", "development", "testing"] : List String) then
        parts1 ++ ["Actual time logged: " ++ rat_repr h.actual_time_spent ++ "h"]
      else parts1
    let f2 : ℚ := if 40 < h.time_in_analysis then f1 * (110/100) else f1
    let parts3 : List String :=
      if 40 < h.time_in_analysis then
        parts2 ++ ["Extended analysis phase (" ++ rat_repr h.time_in_analysis ++ "h, +10%)"]
      else parts2
    if f2 ≠ 1 then
      { e with
        total_hours := round2 (e.total_hours * f2)
        phases := map_phases (fun x => round2 (x * f2)) e.phases
        reasoning := e.reasoning ++ " Historical pattern adjustment: " ++
          String.intercalate "; " parts3 ++ "." }
    else e

/-- `_apply_ai_tools_efficiency`: per-phase efficiency factors with
per-phase rounding to one decimal, total recomputed as original minus the
sum of the reductions.  `none` models the `ZeroDivisionError` of the
efficiency-percent computation when the original total is 0. -/
def apply_ai_tools_efficiency (e : Estimate) (j : Option Jira) : Option Estimate :=
  match j with
  | none => some e
  | some jd =>
    if jd.uses_ai_tools = false then some e
    else
      let original := e.total_hours
      let p := e.phases
      let r_req := round1 (p.requirements * (85/100))
      let r_des := round1 (p.design * (75/100))
      let r_dev := round1 (p.development * (70/100))
      let r_tst := round1 (p.testing * (80/100))
      let r_dep := round1 (p.deployment * (90/100))
      let total_reduction := (p.requirements - r_req) + (p.design - r_des) +
        (p.development - r_dev) + (p.testing - r_tst) + (p.deployment - r_dep)
      let new_total := round2 (original - total_reduction)
      if original = 0 then none
      else
        let eff := round1 (((original - new_total) / original) * 100)
        some { e with
          total_hours := new_total
          phases := ⟨round2 r_req, round2 r_des, round2 r_dev, round2 r_tst, round2 r_dep⟩
          reasoning := e.reasoning ++ " AI development tools applied: " ++ rat_repr eff ++
            "% efficiency gain (-" ++ rat_repr total_reduction ++ "h)." }

/-- Uncertainty keywords of `_calculate_reliable_confidence`. -/
def uncertainty_keywords : List String :=
  ["migration", "upgrade", "complex", "unknown", "unclear"]

/-- `_calculate_reliable_confidence`. -/
def calculate_reliable_confidence (e : Estimate) (j : Option Jira) : ℤ :=
  let b0 : ℤ := 90
  let b1 := if e.complexity = "High" then b0 - 15
            else if e.complexity = "Medium" then b0 - 5 else b0
  let t := e.total_hours
  let b2 := if 80 ≤ t ∧ t ≤ 120 then b1 + 5
            else if 300 < t then b1 - 10
            else if 200 < t then b1 - 5
            else if t < 20 then b1 - 5
            else b1
  let b3 := match j with
    | some jd =>
      let it := lc (jd.issue_type.getD "")
      if it ∈ (["story", "task"] : List String) then b2 + 5 + 5
      else if it = "epic" then b2 + 5 - 3
      else b2 + 5
    | none => b2 - 5
  let b4 := if e.estimation_method = "ai_powered" then b3 + 5
            else if e.estimation_method = "rule_based_fallback" then b3 - 5
            else b3
  let rl := lc e.reasoning
  let b5 := if str_contains rl "enterprise" || str_contains rl "competitive" then b4 + 5 else b4
  let b6 := b5 - 2 * (count_contained rl uncertainty_keywords : ℤ)
  let b7 := if t ≤ 120 then b6 + 10 else b6
  max 90 (min 95 b7)

/-! ## Rule-based fallback (`_fallback_estimation`) -/

def high_keywords : List String :=
  ["react native", "upgrade", "migration", "objective-c", "swift",
   "native dependencies", "third party", "breaking changes",
   "integration", "api", "database", "security", "authentication",
   "iib", "ibm integration bus", "sap", "mainframe", "enterprise integration",
   "cross-system", "multi-system", "legacy system", "enterprise service bus",
   "mq", "message queue", "soap", "enterprise api", "data transformation"]

def medium_keywords : List String :=
  ["crud", "form", "validation", "report", "dashboard",
   "ui", "frontend", "backend", "update", "dependency"]

def fallback_enterprise_keywords : List String :=
  ["iib", "ibm integration bus", "sap", "mainframe", "enterprise integration",
   "cross-system", "multi-system"]

def rn_trigger_keywords : List String := ["react native", "upgrade", "migration"]

def native_platform_keywords : List String := ["objective-c", "swift", "native"]

/-- The keyword score of `_fallback_estimation` including the metadata
adjustments (`high*2 + medium`, then issue-type and priority bonuses). -/
def fallback_score (dl : String) (j : Option Jira) : ℚ :=
  let base : ℚ := (count_contained dl high_keywords : ℚ) * 2 +
    (count_contained dl medium_keywords : ℚ)
  match j with
  | none => base
  | some jd =>
    let it := lc (jd.issue_type.getD "")
    let pr := lc (jd.priority.getD "medium")
    let s1 := if it ∈ (["epic", "story"] : List String) then base + 2
              else if it ∈ (["task", "improvement"] : List String) then base + 1
              else base
    if pr ∈ (["critical", "highest"] : List String) then s1 + 3/2
    else if pr ∈ (["high", "major"] : List String) then s1 + 1
    else s1

/-- The complexity/base-hours selection of `_fallback_estimation` (special
overrides first, then score thresholds, then the enterprise re-force to 80). -/
def fallback_base (dl : String) (score : ℚ) : String × ℚ :=
  let has_enterprise := contains_any dl fallback_enterprise_keywords
  let first : String × ℚ :=
    if contains_any dl rn_trigger_keywords then
      if contains_any dl native_platform_keywords then ("High", 300) else ("High", 200)
    else if has_enterprise then ("Medium", 80)
    else if 4 ≤ score then ("High", 160)
    else if 2 ≤ score then ("Medium", 80)
    else ("Low", 40)
  if has_enterprise then (first.1, 80) else first

/-- `_fallback_estimation`: rule-based estimate, then BlackDuck capping (which
itself ends in status filtering), the identity cross-dependency-overhead
stub, status filtering again, and the confidence computation. -/
def fallback_estimation (description : String) (j : Option Jira) : Estimate :=
  let dl := lc description
  let cb := fallback_base dl (fallback_score dl j)
  let result : Estimate :=
    { total_hours := cb.2
      complexity := cb.1
      reasoning := "Rule-based fallback estimation"
      phases := default_phase_distribution cb.2
      estimation_method := "rule_based_fallback" }
  let r1 := apply_blackduck_capping result j
  let r2 := apply_status_based_filtering r1 j
  { r2 with confidence := some (calculate_reliable_confidence r2 j) }

/-! ## The model-parsed policy pipeline (`_parse_ai_response`, success path) -/

/-- The final 2-decimal cleanup of `_parse_ai_response` (lines 690-694). -/
def round_estimate_hours (e : Estimate) : Estimate :=
  { e with total_hours := round2 e.total_hours, phases := map_phases round2 e.phases }

/-- The stage sequence `_parse_ai_response` applies to a structurally valid
model estimate: BlackDuck capping (with status filtering), competitive
capping, cross-dependency analysis (the overhead stub is the identity),
historical adjustment, AI-tools efficiency, 2-decimal cleanup, confidence
and metadata, then the learning adjustment.  `none` models an exception
escaping a stage. -/
def apply_parse_policies (e : Estimate) (j : Option Jira) (hist : List HistoryRecord) :
    Option Estimate :=
  let e1 := apply_blackduck_capping e j
  let e2 := apply_competitive_capping e1 j
  match apply_intelligent_cross_dependency_analysis e2 j with
  | none => none
  | some e3 =>
    let e4 := apply_historical_adjustment e3 j
    match apply_ai_tools_efficiency e4 j with
    | none => none
    | some e5 =>
      let e6 := round_estimate_hours e5
      let conf := calculate_reliable_confidence e6 j
      some (get_improved_estimate
        { e6 with estimation_method := "ai_powered", ai_confidence := some conf } hist)

/-! ## The `/estimate` route slice (`app.py`) used by the cache claim -/

/-- The full status list the route checks before applying status filtering. -/
def status_override_list : List String :=
  qa_statuses ++ uat_statuses ++ done_statuses ++ in_progress_statuses

/-- Whether the route applies status-based filtering to the estimator result
(`status_override` in `app.py`, with no custom phases configured). -/
def status_override (j : Option Jira) : Bool :=
  let st := match j with | none => "" | some jd => lc (jd.status.getD "")
  status_override_list.contains st

/-- The fields of the route's response relevant to the Estimate data model
(`estimated_date`, a wall-clock timestamp, is outside the model). -/
structure RouteResult where
  complexity : String
  total_hours : ℚ
  phases : Phases
  estimation_method : String
  ai_confidence : ℤ
  ai_reasoning : String
deriving DecidableEq, Repr

/-- The route's default re-allocation of phases from the estimator's total
(all five phases selected, default percentages). -/
def route_default_phase_alloc (base_total : ℚ) : Phases :=
  ⟨round2 (base_total * (15/100)), round2 (base_total * (20/100)),
   round2 (base_total * (48/100)), round2 (base_total * (15/100)),
   round2 (base_total * (2/100))⟩

/-- One `/estimate` call on the AI path with default phase settings, where
`estimate_with_ai` has no model client and so serves the rule-based fallback,
memoising it in the cache.  The route's status filtering mutates the same
dictionary object the cache holds (Python aliasing), so the returned cache
state carries the filtered record. -/
def estimate_route_call (cache : Option Estimate) (description : String)
    (j : Option Jira) : RouteResult × Option Estimate :=
  let ai := match cache with
    | some e => e
    | none => fallback_estimation description j
  if status_override j then
    let ai2 := apply_status_based_filtering ai j
    (⟨ai2.complexity, ai2.total_hours, ai2.phases, ai2.estimation_method,
      ai2.confidence.getD 75, ai2.reasoning⟩, some ai2)
  else
    let ph := route_default_phase_alloc ai.total_hours
    (⟨ai.complexity, round2 (phases_sum ph), ph, ai.estimation_method,
      ai.confidence.getD 75, ai.reasoning⟩, some ai)

/-! ## Concrete inputs used by the claims -/

def c1_estimate : Estimate :=
  { total_hours := 100, complexity := "Medium", phases := ⟨15, 20, 48, 15, 2⟩ }

def c1_jira : Jira := { linked_issues := [⟨"PROJ-1", "Blocks", ""⟩] }

def c2_estimate : Estimate :=
  { total_hours := 50, complexity := "Medium", reasoning := "cve remediation",
    phases := ⟨10, 10, 10, 10, 10⟩ }

def c2_jira : Jira := { uses_ai_tools := true }

def c2_bd : Estimate :=
  { total_hours := 32, complexity := "Low",
    reasoning := "BlackDuck security ticket - capped at 32 hours. cve remediation",
    phases := ⟨4, 0, 24, 3, 1⟩ }

def c2w_estimate : Estimate :=
  { total_hours := 500, complexity := "High", reasoning := "blackduck fix",
    phases := ⟨100, 100, 100, 100, 100⟩ }

def c2w_jira : Jira := {}

def c5_jira : Jira := { status := some "Done" }

/-- Per-phase AI-efficiency multipliers with the source's one-decimal rounding. -/
def ai_phase_discounts (p : Phases) : Phases :=
  ⟨round1 (p.requirements * (85/100)), round1 (p.design * (75/100)),
   round1 (p.development * (70/100)), round1 (p.testing * (80/100)),
   round1 (p.deployment * (90/100))⟩

def c6_base : Estimate :=
  { total_hours := 104, complexity := "Medium", phases := default_phase_distribution 104 }

def c6_jira : Jira := { uses_ai_tools := true }

def c7_description : String :=
  "Upgrade React Native from 0.76 to 0.79 with Objective-C to Swift migration of the payment module"

def c8_description : String :=
  "SAP cross-system integration with api and database security authentication"

def c9r1 : HistoryRecord := { jira_ticket := "A-1", estimated_hours := 10, actual_hours := some 12, complexity := "Low" }

def c9r2 : HistoryRecord := { jira_ticket := "A-2", estimated_hours := 10, actual_hours := some 8, complexity := "Low" }

def c9r3 : HistoryRecord := { jira_ticket := "A-3", estimated_hours := 10, actual_hours := some 10, complexity := "Medium" }

def c9r4 : HistoryRecord := { jira_ticket := "A-4", estimated_hours := 5, complexity := "High" }

def c9_history : List HistoryRecord := [c9r1, c9r2, c9r3, c9r4]

def c9_small : List HistoryRecord := [c9r1, c9r2]


/-! ## Helper lemmas -/

theorem rhe_intCast (m : ℤ) : rhe (m : ℚ) = m := by
  unfold rhe
  norm_num

theorem round2_tenths (k : ℤ) : round2 ((k : ℚ)/10) = (k : ℚ)/10 := by
  unfold round2 pyround
  have h1 : ((k : ℚ)/10) * (10 : ℚ)^(2:ℕ) = ((10 * k : ℤ) : ℚ) := by push_cast; ring
  rw [h1, rhe_intCast]
  push_cast; ring

theorem round1_as_tenths (x : ℚ) : round1 x = ((rhe (x * 10) : ℤ) : ℚ)/10 := by
  unfold round1 pyround
  norm_num

theorem round2_round1 (x : ℚ) : round2 (round1 x) = round1 x := by
  rw [round1_as_tenths, round2_tenths]

theorem status_filter_establishes_sum (e : Estimate) (jd : Jira) (st : String)
    (hst : jd.status = some st) :
    sum_matches_total (apply_status_based_filtering e (some jd)) := by
  simp only [apply_status_based_filtering, hst]
  exact rfl

theorem status_filter_no_status (e : Estimate) (jd : Jira) (hst : jd.status = none) :
    apply_status_based_filtering e (some jd) = e := by
  simp [apply_status_based_filtering, hst]

theorem status_filter_preserves_sum (e : Estimate) (j : Option Jira)
    (hs : sum_matches_total e) :
    sum_matches_total (apply_status_based_filtering e j) := by
  cases j with
  | none => simpa [apply_status_based_filtering] using hs
  | some jd =>
    cases hstq : jd.status with
    | none => rw [status_filter_no_status e jd hstq]; exact hs
    | some st => exact status_filter_establishes_sum e jd st hstq

theorem blackduck_preserves_sum (e : Estimate) (j : Option Jira)
    (hs : sum_matches_total e) :
    sum_matches_total (apply_blackduck_capping e j) := by
  unfold apply_blackduck_capping
  by_cases hbd : is_blackduck_ticket e j = true
  · refine status_filter_preserves_sum _ j ?_
    simp only [hbd, if_true]
    show phases_sum ⟨4, 0, 24, 3, 1⟩ = (32 : ℚ)
    norm_num [phases_sum]
  · refine status_filter_preserves_sum _ j ?_
    simp only [Bool.not_eq_true] at hbd
    simp only [hbd, Bool.false_eq_true, if_false]
    exact hs

theorem competitive_preserves_sum (e : Estimate) (j : Option Jira)
    (hs : sum_matches_total e) :
    sum_matches_total (apply_competitive_capping e j) := by
  unfold apply_competitive_capping
  by_cases hc : 150 < e.total_hours
  · simp only [if_pos hc]
    show phases_sum (default_phase_distribution 120) = (120 : ℚ)
    norm_num [phases_sum, default_phase_distribution, round1, pyround, rhe]
  · simp only [if_neg hc]
    exact hs

theorem ai_tools_preserves_sum (e : Estimate) (j : Option Jira) (e2 : Estimate)
    (hs : sum_matches_total e) (he2 : apply_ai_tools_efficiency e j = some e2) :
    sum_matches_total e2 := by
  cases j with
  | none =>
    simp only [apply_ai_tools_efficiency, Option.some_inj] at he2
    rw [← he2]; exact hs
  | some jd =>
    by_cases hai : jd.uses_ai_tools = true
    · by_cases h0 : e.total_hours = 0
      · simp [apply_ai_tools_efficiency, hai, h0] at he2
      · simp only [apply_ai_tools_efficiency, hai, Bool.true_eq_false, if_false, reduceIte,
          h0, Option.some_inj] at he2
        rw [← he2]
        show phases_sum _ = _
        simp only [phases_sum]
        rw [round2_round1, round2_round1, round2_round1, round2_round1, round2_round1]
        rw [round1_as_tenths (e.phases.requirements * (85/100)),
            round1_as_tenths (e.phases.design * (75/100)),
            round1_as_tenths (e.phases.development * (70/100)),
            round1_as_tenths (e.phases.testing * (80/100)),
            round1_as_tenths (e.phases.deployment * (90/100))]
        have hsum : e.total_hours = phases_sum e.phases := hs.symm
        rw [hsum]
        simp only [phases_sum]
        have harg :
            e.phases.requirements + e.phases.design + e.phases.development + e.phases.testing +
                e.phases.deployment -
              (e.phases.requirements - ((rhe (e.phases.requirements * (85/100) * 10) : ℤ) : ℚ)/10 +
               (e.phases.design - ((rhe (e.phases.design * (75/100) * 10) : ℤ) : ℚ)/10) +
               (e.phases.development - ((rhe (e.phases.development * (70/100) * 10) : ℤ) : ℚ)/10) +
               (e.phases.testing - ((rhe (e.phases.testing * (80/100) * 10) : ℤ) : ℚ)/10) +
               (e.phases.deployment - ((rhe (e.phases.deployment * (90/100) * 10) : ℤ) : ℚ)/10)) =
            (((rhe (e.phases.requirements * (85/100) * 10) + rhe (e.phases.design * (75/100) * 10) +
               rhe (e.phases.development * (70/100) * 10) + rhe (e.phases.testing * (80/100) * 10) +
               rhe (e.phases.deployment * (90/100) * 10) : ℤ) : ℚ))/10 := by
          push_cast
          ring
        rw [harg, round2_tenths]
        push_cast
        ring
    · simp only [Bool.not_eq_true] at hai
      simp only [apply_ai_tools_efficiency, hai, if_true, reduceIte, Option.some_inj] at he2
      rw [← he2]; exact hs

theorem cross_dependency_surcharge_branch (e : Estimate) (jd : Jira)
    (hE : contains_any (lc ((jd.summary.getD "") ++ " " ++ (jd.description.getD "")))
      cross_enterprise_systems = false)
    (hadd : 0 < (analyze_linked_ticket_complexity jd).additional_hours) :
    apply_intelligent_cross_dependency_analysis e (some jd) =
      some (cross_dependency_surcharge e (analyze_linked_ticket_complexity jd)) ∧
    (cross_dependency_surcharge e (analyze_linked_ticket_complexity jd)).phases = e.phases ∧
    (cross_dependency_surcharge e (analyze_linked_ticket_complexity jd)).total_hours =
      round2 (e.total_hours +
        min (analyze_linked_ticket_complexity jd).additional_hours 20) := by
  refine ⟨?_, rfl, rfl⟩
  simp only [apply_intelligent_cross_dependency_analysis, hE, Bool.false_eq_true, if_false,
    reduceIte, if_pos hadd]

theorem cross_dependency_key_error (e : Estimate) (jd : Jira)
    (hE : contains_any (lc ((jd.summary.getD "") ++ " " ++ (jd.description.getD "")))
      cross_enterprise_systems = true)
    (hlink : jd.linked_issues = []) :
    apply_intelligent_cross_dependency_analysis e (some jd) = none := by
  have hdep : analyze_linked_ticket_complexity jd = ⟨0, 0, "", none⟩ := by
    simp [analyze_linked_ticket_complexity, hlink]
  simp [apply_intelligent_cross_dependency_analysis, hE, hdep]

theorem cross_dependency_no_change (e : Estimate) (jd : Jira)
    (hE : contains_any (lc ((jd.summary.getD "") ++ " " ++ (jd.description.getD "")))
      cross_enterprise_systems = false)
    (hlink : jd.linked_issues = []) :
    apply_intelligent_cross_dependency_analysis e (some jd) = some e := by
  have hdep : analyze_linked_ticket_complexity jd = ⟨0, 0, "", none⟩ := by
    simp [analyze_linked_ticket_complexity, hlink]
  simp [apply_intelligent_cross_dependency_analysis, hE, hdep]

theorem historical_no_data_id (e : Estimate) (jd : Jira)
    (hh : jd.status_history = []) (ht : jd.time_in_status = [])
    (hsp : jd.time_spent_seconds = 0) :
    apply_historical_adjustment e (some jd) = e := by
  simp [apply_historical_adjustment, analyze_jira_historical_patterns, hh, ht, hsp]

theorem ai_tools_id_of_not_used (e : Estimate) (jd : Jira)
    (h : jd.uses_ai_tools = false) :
    apply_ai_tools_efficiency e (some jd) = some e := by
  simp [apply_ai_tools_efficiency, h]

theorem learning_empty_id (e : Estimate) : get_improved_estimate e [] = e := by
  simp [get_improved_estimate, get_complexity_adjustments, completed_records]

theorem status_filter_keeps_fields (e : Estimate) (j : Option Jira) :
    (apply_status_based_filtering e j).complexity = e.complexity ∧
    (apply_status_based_filtering e j).estimation_method = e.estimation_method ∧
    (apply_status_based_filtering e j).confidence = e.confidence := by
  cases j with
  | none => exact ⟨rfl, rfl, rfl⟩
  | some jd =>
    cases hs : jd.status with
    | none => rw [status_filter_no_status _ _ hs]; exact ⟨rfl, rfl, rfl⟩
    | some st0 =>
      simp only [apply_status_based_filtering, hs]
      refine ⟨?_, ?_, ?_⟩ <;> trivial

theorem status_filter_idem (e : Estimate) (j : Option Jira) :
    (apply_status_based_filtering (apply_status_based_filtering e j) j).phases =
      (apply_status_based_filtering e j).phases ∧
    (apply_status_based_filtering (apply_status_based_filtering e j) j).total_hours =
      (apply_status_based_filtering e j).total_hours := by
  cases j with
  | none => exact ⟨rfl, rfl⟩
  | some jd =>
    cases hs : jd.status with
    | none =>
      rw [status_filter_no_status _ _ hs, status_filter_no_status _ _ hs]
      exact ⟨rfl, rfl⟩
    | some st0 =>
      simp only [apply_status_based_filtering, hs]
      by_cases h1 : lc st0 ∈ qa_statuses
      · simp only [if_pos h1]; refine ⟨?_, ?_⟩ <;> trivial
      · by_cases h2 : lc st0 ∈ uat_statuses
        · simp only [if_neg h1, if_pos h2]; refine ⟨?_, ?_⟩ <;> trivial
        · by_cases h3 : lc st0 ∈ done_statuses
          · simp only [if_neg h1, if_neg h2, if_pos h3]; refine ⟨?_, ?_⟩ <;> trivial
          · by_cases h4 : lc st0 ∈ in_progress_statuses
            · simp only [if_neg h1, if_neg h2, if_neg h3, if_pos h4]; refine ⟨?_, ?_⟩ <;> trivial
            · simp only [if_neg h1, if_neg h2, if_neg h3, if_neg h4]; refine ⟨?_, ?_⟩ <;> trivial

/-! C10 helpers -/
theorem update_from_newest_none_of_mem (l : List HistoryRecord) (t : String)
    (hm : ∃ r ∈ l, r.jira_ticket = t) : update_from_newest l t 0 = none := by
  induction l with
  | nil => simp at hm
  | cons r rest ih =>
    by_cases h : r.jira_ticket = t
    · simp [update_from_newest, h]
    · have hm2 : ∃ s ∈ rest, s.jira_ticket = t := by
        rcases hm with ⟨s, hs, hst⟩
        rcases List.mem_cons.1 hs with rfl | hs2
        · exact absurd hst h
        · exact ⟨s, hs2, hst⟩
      simp [update_from_newest, h, ih hm2]

theorem update_from_newest_no_match (l : List HistoryRecord) (t : String) (a : ℚ)
    (hm : ∀ r ∈ l, r.jira_ticket ≠ t) : update_from_newest l t a = some (l, false) := by
  induction l with
  | nil => rfl
  | cons r rest ih =>
    have h : r.jira_ticket ≠ t := hm r (List.mem_cons_self r rest)
    have hrest : ∀ s ∈ rest, s.jira_ticket ≠ t := fun s hs => hm s (List.mem_cons_of_mem r hs)
    simp [update_from_newest, h, ih hrest]

theorem update_from_newest_isSome (l : List HistoryRecord) (t : String) (a : ℚ)
    (ha : a ≠ 0) : (update_from_newest l t a).isSome = true := by
  induction l with
  | nil => rfl
  | cons r rest ih =>
    by_cases h : r.jira_ticket = t
    · simp [update_from_newest, h, ha]
    · simp only [update_from_newest, if_neg h]
      rcases ho : update_from_newest rest t a with _ | ⟨l2, b⟩
      · rw [ho] at ih; simp at ih
      · simp

theorem c1_analyze_eval : analyze_linked_ticket_complexity c1_jira =
    ⟨2, 8, "Blocking dependency: PROJ-1", some 1⟩ := by
  have hmin : min (8 : ℚ) 15 = 8 := by norm_num
  simp [analyze_linked_ticket_complexity, c1_jira, analyze_one_link, lc, count_contained,
    String.intercalate, hmin]
  decide


/-! ## Claims -/

/-- C1 (amended): the sum-of-phases invariant is preserved exactly by the
BlackDuck-capping, competitive-capping and AI-tools stages, and is
re-established by status filtering whenever a status key is present; but the
cross-dependency stage's surcharge branch adds the (20-hour-capped) overhead
to `total_hours` while leaving the phases unchanged, and its
enterprise-baseline branch raises a `KeyError` (aborting the parse pipeline)
whenever the ticket has no linked issues. -/
theorem c1_sum_invariant_amended :
    (∀ (e : Estimate) (j : Option Jira), sum_matches_total e →
      sum_matches_total (apply_blackduck_capping e j)) ∧
    (∀ (e : Estimate) (j : Option Jira), sum_matches_total e →
      sum_matches_total (apply_competitive_capping e j)) ∧
    (∀ (e : Estimate) (jd : Jira) (st : String), jd.status = some st →
      sum_matches_total (apply_status_based_filtering e (some jd))) ∧
    (∀ (e : Estimate) (j : Option Jira) (e2 : Estimate), sum_matches_total e →
      apply_ai_tools_efficiency e j = some e2 → sum_matches_total e2) ∧
    (∀ (e : Estimate) (jd : Jira),
      contains_any (lc ((jd.summary.getD "") ++ " " ++ (jd.description.getD "")))
        cross_enterprise_systems = false →
      0 < (analyze_linked_ticket_complexity jd).additional_hours →
      apply_intelligent_cross_dependency_analysis e (some jd) =
        some (cross_dependency_surcharge e (analyze_linked_ticket_complexity jd)) ∧
      (cross_dependency_surcharge e (analyze_linked_ticket_complexity jd)).phases = e.phases ∧
      (cross_dependency_surcharge e (analyze_linked_ticket_complexity jd)).total_hours =
        round2 (e.total_hours +
          min (analyze_linked_ticket_complexity jd).additional_hours 20)) ∧
    (∀ (e : Estimate) (jd : Jira),
      contains_any (lc ((jd.summary.getD "") ++ " " ++ (jd.description.getD "")))
        cross_enterprise_systems = true →
      jd.linked_issues = [] →
      apply_intelligent_cross_dependency_analysis e (some jd) = none) :=
  ⟨blackduck_preserves_sum, competitive_preserves_sum,
   fun e jd st hst => status_filter_establishes_sum e jd st hst,
   ai_tools_preserves_sum, cross_dependency_surcharge_branch, cross_dependency_key_error⟩

/-- C1 counterexample: an estimate whose phases sum to its total (100) and a
ticket with one blocking linked issue make the cross-dependency stage (and
the whole parsed pipeline) report `total_hours = 108` with phases still
summing to 100, missing the 0.01 tolerance by eight hours. -/
theorem c1_counterexample :
    sum_matches_total c1_estimate ∧
    (apply_intelligent_cross_dependency_analysis c1_estimate (some c1_jira)).map
      (fun r => (r.total_hours, r.phases)) = some (108, c1_estimate.phases) ∧
    (apply_parse_policies c1_estimate (some c1_jira) []).map
      (fun r => (r.total_hours, r.phases)) = some (108, c1_estimate.phases) ∧
    (1/100 : ℚ) < |phases_sum c1_estimate.phases - 108| := by
  have hana := c1_analyze_eval
  have hE : contains_any (lc ((c1_jira.summary.getD "") ++ " " ++ (c1_jira.description.getD "")))
      cross_enterprise_systems = false := by decide
  have hadd : 0 < (analyze_linked_ticket_complexity c1_jira).additional_hours := by
    rw [hana]
    norm_num
  have h1 := cross_dependency_surcharge_branch c1_estimate c1_jira hE hadd
  have htot : (cross_dependency_surcharge c1_estimate
      (analyze_linked_ticket_complexity c1_jira)).total_hours = 108 := by
    rw [h1.2.2, hana]
    norm_num [c1_estimate, round2, pyround, rhe]
  have hph : (cross_dependency_surcharge c1_estimate
      (analyze_linked_ticket_complexity c1_jira)).phases = c1_estimate.phases := h1.2.1
  refine ⟨?_, ?_, ?_, ?_⟩
  · show phases_sum _ = _
    norm_num [c1_estimate, phases_sum]
  · rw [h1.1]
    simp only [Option.map_some']
    rw [htot, hph]
  · have hbd : is_blackduck_ticket c1_estimate (some c1_jira) = false := by decide
    have he1 : apply_blackduck_capping c1_estimate (some c1_jira) = c1_estimate := by
      unfold apply_blackduck_capping
      rw [hbd]
      simp only [Bool.false_eq_true, if_false]
      exact status_filter_no_status _ _ rfl
    have hlt : ¬ (150 : ℚ) < c1_estimate.total_hours := by norm_num [c1_estimate]
    have he2 : apply_competitive_capping c1_estimate (some c1_jira) = c1_estimate := by
      unfold apply_competitive_capping
      rw [if_neg hlt]
    simp only [apply_parse_policies]
    rw [he1, he2, h1.1]
    simp only
    rw [historical_no_data_id _ c1_jira rfl rfl rfl, ai_tools_id_of_not_used _ c1_jira rfl]
    simp only [learning_empty_id, Option.map_some', round_estimate_hours]
    rw [htot, hph]
    simp only [Option.some_inj, Prod.mk.injEq]
    constructor
    · norm_num [round2, pyround, rhe]
    · norm_num [c1_estimate, map_phases, round2, pyround, rhe, Phases.mk.injEq]
  · norm_num [c1_estimate, phases_sum]

/-- Witness for the amended C1 at concrete inputs: each preserved stage and
both cross-dependency branches are exercised. -/
theorem c1_amended_witness :
    sum_matches_total (apply_blackduck_capping c1_estimate none) ∧
    sum_matches_total (apply_competitive_capping c1_estimate none) ∧
    sum_matches_total (apply_status_based_filtering c1_estimate (some { status := some "QA" })) ∧
    sum_matches_total c1_estimate ∧
    apply_intelligent_cross_dependency_analysis c1_estimate (some c1_jira) =
      some (cross_dependency_surcharge c1_estimate (analyze_linked_ticket_complexity c1_jira)) ∧
    apply_intelligent_cross_dependency_analysis c1_estimate
      (some { summary := some "SAP integration" }) = none := by
  have hsum : sum_matches_total c1_estimate := by
    show phases_sum _ = _
    norm_num [c1_estimate, phases_sum]
  refine ⟨c1_sum_invariant_amended.1 c1_estimate none hsum,
    c1_sum_invariant_amended.2.1 c1_estimate none hsum,
    c1_sum_invariant_amended.2.2.1 c1_estimate _ "QA" rfl,
    c1_sum_invariant_amended.2.2.2.1 c1_estimate (some { uses_ai_tools := false })
      c1_estimate hsum (by simp [apply_ai_tools_efficiency]),
    (c1_sum_invariant_amended.2.2.2.2.1 c1_estimate c1_jira (by decide) ?_).1,
    c1_sum_invariant_amended.2.2.2.2.2 c1_estimate _ (by decide) rfl⟩
  rw [c1_analyze_eval]
  norm_num

/-- C2 counterexample: an estimate whose reasoning contains "cve" is capped
at 32 hours by the BlackDuck stage, but the later AI-tools stage of the same
pipeline run cuts the final result to 23.5 hours, so the final total is not
32 even though no status-based filtering was involved. -/
theorem c2_counterexample :
    (apply_parse_policies c2_estimate (some c2_jira) []).map
      (fun r => (r.total_hours, r.complexity, r.phases)) =
      some (47/2, "Low", (⟨17/5, 0, 84/5, 12/5, 9/10⟩ : Phases)) ∧
    (47/2 : ℚ) < 32 := by
  refine ⟨?_, by norm_num⟩
  have hbd : is_blackduck_ticket c2_estimate (some c2_jira) = true := by decide
  have he1 : apply_blackduck_capping c2_estimate (some c2_jira) = c2_bd := by
    unfold apply_blackduck_capping
    rw [hbd]
    simp only [if_true]
    rw [status_filter_no_status _ _ rfl]
    simp only [c2_estimate, c2_bd]
    rfl
  have hlt : ¬ (150 : ℚ) < c2_bd.total_hours := by norm_num [c2_bd]
  have he2 : apply_competitive_capping c2_bd (some c2_jira) = c2_bd := by
    unfold apply_competitive_capping
    rw [if_neg hlt]
  have he3 := cross_dependency_no_change c2_bd c2_jira (by decide) rfl
  have he4 := historical_no_data_id c2_bd c2_jira rfl rfl rfl
  simp only [apply_parse_policies]
  rw [he1, he2, he3]
  simp only
  rw [he4]
  simp only [apply_ai_tools_efficiency, c2_jira, c2_bd, Bool.true_eq_false, if_false, reduceIte]
  norm_num [round1, round2, pyround, rhe, learning_empty_id, round_estimate_hours, map_phases,
    get_improved_estimate, get_complexity_adjustments, completed_records]

/-- C2 (amended): the BlackDuck stage, which runs first, hard-sets
32 hours / Low / the fixed phase split for every matching ticket; the final
pipeline result keeps those values only when no later stage fires (no
enterprise keywords, no linked issues, no changelog data, AI tools off and an
empty learning history). -/
theorem c2_blackduck_cap_amended (e : Estimate) (jd : Jira)
    (hbd : is_blackduck_ticket e (some jd) = true)
    (hst : jd.status = none)
    (hE : contains_any (lc ((jd.summary.getD "") ++ " " ++ (jd.description.getD "")))
      cross_enterprise_systems = false)
    (hlink : jd.linked_issues = [])
    (hh : jd.status_history = []) (ht : jd.time_in_status = [])
    (hsp : jd.time_spent_seconds = 0) (hai : jd.uses_ai_tools = false) :
    (apply_blackduck_capping e (some jd)).total_hours = 32 ∧
    (apply_blackduck_capping e (some jd)).complexity = "Low" ∧
    (apply_blackduck_capping e (some jd)).phases = ⟨4, 0, 24, 3, 1⟩ ∧
    (apply_parse_policies e (some jd) []).map
      (fun r => (r.total_hours, r.complexity, r.phases)) =
      some (32, "Low", (⟨4, 0, 24, 3, 1⟩ : Phases)) := by
  have he1 : apply_blackduck_capping e (some jd) =
      { e with
        total_hours := 32
        complexity := "Low"
        phases := ⟨4, 0, 24, 3, 1⟩
        reasoning := "BlackDuck security ticket - capped at 32 hours. " ++ e.reasoning } := by
    unfold apply_blackduck_capping
    rw [hbd]
    simp only [if_true]
    rw [status_filter_no_status _ _ hst]
  refine ⟨by rw [he1], by rw [he1], by rw [he1], ?_⟩
  have hlt : ¬ (150 : ℚ) <
      ({ e with
        total_hours := 32
        complexity := "Low"
        phases := (⟨4, 0, 24, 3, 1⟩ : Phases)
        reasoning := "BlackDuck security ticket - capped at 32 hours. " ++ e.reasoning } :
        Estimate).total_hours := by norm_num
  simp only [apply_parse_policies]
  rw [he1, apply_competitive_capping, if_neg hlt,
    cross_dependency_no_change _ jd hE hlink]
  simp only
  rw [historical_no_data_id _ jd hh ht hsp, ai_tools_id_of_not_used _ jd hai]
  simp only [learning_empty_id, Option.map_some', round_estimate_hours]
  norm_num [round2, pyround, rhe, map_phases]

/-- Witness for the amended C2: a "blackduck" reasoning with empty ticket
metadata keeps 32 / Low / the fixed phases through the whole pipeline. -/
theorem c2_amended_witness :
    (apply_blackduck_capping c2w_estimate (some c2w_jira)).total_hours = 32 ∧
    (apply_blackduck_capping c2w_estimate (some c2w_jira)).complexity = "Low" ∧
    (apply_blackduck_capping c2w_estimate (some c2w_jira)).phases = ⟨4, 0, 24, 3, 1⟩ ∧
    (apply_parse_policies c2w_estimate (some c2w_jira) []).map
      (fun r => (r.total_hours, r.complexity, r.phases)) =
      some (32, "Low", (⟨4, 0, 24, 3, 1⟩ : Phases)) :=
  c2_blackduck_cap_amended c2w_estimate c2w_jira (by decide) rfl (by decide) rfl rfl rfl rfl rfl

/-- C3: for every estimation record and every (possibly absent) ticket
metadata record, `_calculate_reliable_confidence` returns an integer in the
closed interval [90, 95]: the final clamp saturates all intermediate
arithmetic. -/
theorem c3_confidence_always_in_90_95 (e : Estimate) (j : Option Jira) :
    90 ≤ calculate_reliable_confidence e j ∧ calculate_reliable_confidence e j ≤ 95 := by
  unfold calculate_reliable_confidence
  exact ⟨le_max_left _ _, max_le (by norm_num) (min_le_left _ _)⟩

/-- C4: for every upstream estimate and any ticket whose status lowercases
into the done family, status-based filtering zeroes all five phases and
recomputes `total_hours` as their sum, so the result carries all-zero phases
and a zero total. -/
theorem c4_done_status_zeroes (e : Estimate) (jd : Jira) (st : String)
    (hst : jd.status = some st) (hd : lc st ∈ done_statuses) :
    (apply_status_based_filtering e (some jd)).phases = ⟨0, 0, 0, 0, 0⟩ ∧
    (apply_status_based_filtering e (some jd)).total_hours = 0 := by
  have hqa : lc st ∉ qa_statuses := by
    simp only [done_statuses, List.mem_cons, List.mem_singleton, List.not_mem_nil, or_false] at hd
    rcases hd with h | h | h | h | h <;> rw [h] <;> decide
  have huat : lc st ∉ uat_statuses := by
    simp only [done_statuses, List.mem_cons, List.mem_singleton, List.not_mem_nil, or_false] at hd
    rcases hd with h | h | h | h | h <;> rw [h] <;> decide
  simp only [apply_status_based_filtering, hst, if_neg hqa, if_neg huat, if_pos hd]
  norm_num [phases_sum]

/-- Witness for C4 at status "Done" on a 97-hour estimate. -/
theorem c4_witness :
    (apply_status_based_filtering
      { total_hours := 97, complexity := "High", reasoning := "r", phases := ⟨10, 20, 30, 17, 20⟩ }
      (some { status := some "Done" })).phases = ⟨0, 0, 0, 0, 0⟩ ∧
    (apply_status_based_filtering
      { total_hours := 97, complexity := "High", reasoning := "r", phases := ⟨10, 20, 30, 17, 20⟩ }
      (some { status := some "Done" })).total_hours = 0 :=
  c4_done_status_zeroes _ _ "Done" rfl (by decide)

/-- C5 counterexample: two identical `/estimate` calls for a "Done" ticket do
not return byte-for-byte identical results: the route's status filtering
mutates the shared cached record in place, so the second call's reasoning
carries one more " Ticket done - no remaining work." note than the first. -/
theorem c5_counterexample :
    ((estimate_route_call ((estimate_route_call none "fix typo" (some c5_jira)).2) "fix typo"
        (some c5_jira)).1.ai_reasoning ==
      (estimate_route_call none "fix typo" (some c5_jira)).1.ai_reasoning) = false := by
  decide

/-- C5 (amended): the second identical call is a cache hit and agrees with
the first on every hour, phase, complexity, method and confidence field; when
no status-based filtering applies the results are fully identical, but when
it applies only the reasoning field can differ (the route mutates the shared
cached record, appending its note on every call). -/
theorem c5_cache_amended (d : String) (j : Option Jira) :
    (estimate_route_call ((estimate_route_call none d j).2) d j).1.total_hours =
      (estimate_route_call none d j).1.total_hours ∧
    (estimate_route_call ((estimate_route_call none d j).2) d j).1.phases =
      (estimate_route_call none d j).1.phases ∧
    (estimate_route_call ((estimate_route_call none d j).2) d j).1.complexity =
      (estimate_route_call none d j).1.complexity ∧
    (estimate_route_call ((estimate_route_call none d j).2) d j).1.estimation_method =
      (estimate_route_call none d j).1.estimation_method ∧
    (estimate_route_call ((estimate_route_call none d j).2) d j).1.ai_confidence =
      (estimate_route_call none d j).1.ai_confidence ∧
    (status_override j = false →
      (estimate_route_call ((estimate_route_call none d j).2) d j).1 =
        (estimate_route_call none d j).1) := by
  by_cases ho : status_override j = true
  · simp only [estimate_route_call, ho, if_true]
    refine ⟨(status_filter_idem _ j).2, (status_filter_idem _ j).1,
      (status_filter_keeps_fields _ j).1, (status_filter_keeps_fields _ j).2.1, ?_, ?_⟩
    · rw [(status_filter_keeps_fields _ j).2.2]
    · intro h
      simp at h
  · simp only [Bool.not_eq_true] at ho
    simp only [estimate_route_call, ho, Bool.false_eq_true, if_false]
    simp

/-- Witness for the amended C5: with no ticket metadata the two calls return
fully identical results. -/
theorem c5_amended_witness :
    (estimate_route_call ((estimate_route_call none "simple task" none).2) "simple task" none).1 =
      (estimate_route_call none "simple task" none).1 :=
  (c5_cache_amended "simple task" none).2.2.2.2.2 (by decide)

/-- C6 counterexample: on the 104-hour default-weighted estimate the
development phase (49.9h) is reduced by 15.0h, not by exactly 30% of its
pre-discount figure (14.97h): the per-phase one-decimal rounding shifts the
reduction. -/
theorem c6_counterexample :
    (apply_ai_tools_efficiency c6_base (some c6_jira)).map
      (fun r => c6_base.phases.development - r.phases.development) = some 15 ∧
    c6_base.phases.development = 499/10 ∧
    (3/10 : ℚ) * (499/10) < 15 := by
  refine ⟨?_, ?_, by norm_num⟩
  · norm_num [apply_ai_tools_efficiency, c6_base, c6_jira, default_phase_distribution,
      round1, round2, pyround, rhe]
  · norm_num [c6_base, default_phase_distribution, round1, pyround, rhe]

/-- C6 (amended): the AI-tools stage multiplies each phase by its factor
(0.85/0.75/0.70/0.80/0.90) rounding each to one decimal, and recomputes the
total as the original minus the sum of the per-phase reductions; on the
104-hour default-weighted estimate development goes 49.9 to 34.9 (a
15.0-hour, approximately 30% reduction) and the total becomes 78.2. -/
theorem c6_ai_tools_amended :
    (∀ (e : Estimate) (jd : Jira), jd.uses_ai_tools = true → e.total_hours ≠ 0 →
      (apply_ai_tools_efficiency e (some jd)).map (fun r => (r.total_hours, r.phases)) =
        some (round2 (e.total_hours -
            (phases_sum e.phases - phases_sum (ai_phase_discounts e.phases))),
          map_phases round2 (ai_phase_discounts e.phases))) ∧
    (apply_ai_tools_efficiency c6_base (some c6_jira)).map
      (fun r => (r.total_hours, r.phases.development)) = some (391/5, 349/10) := by
  constructor
  · intro e jd hai h0
    simp only [apply_ai_tools_efficiency, hai, Bool.true_eq_false, if_neg, if_false,
      reduceIte, h0, Option.map_some', ai_phase_discounts, map_phases,
      phases_sum, Option.some_inj, Prod.mk.injEq]
    simp only [and_true]
    congr 1
    ring
  · norm_num [apply_ai_tools_efficiency, c6_base, c6_jira, default_phase_distribution,
      round1, round2, pyround, rhe]

/-- Witness for the amended C6: the per-phase formula applied to the
104-hour default-weighted estimate with AI tools enabled. -/
theorem c6_amended_witness :
    (apply_ai_tools_efficiency c6_base (some c6_jira)).map (fun r => (r.total_hours, r.phases)) =
      some (round2 (c6_base.total_hours -
          (phases_sum c6_base.phases - phases_sum (ai_phase_discounts c6_base.phases))),
        map_phases round2 (ai_phase_discounts c6_base.phases)) :=
  c6_ai_tools_amended.1 c6_base c6_jira rfl (by norm_num [c6_base])

/-- C7: for the given React-Native-plus-native-migration description with no
ticket metadata, the rule-based fallback returns complexity "High" and
`total_hours = 300` (the react-native trigger plus native-platform override
precedes threshold scoring). -/
theorem c7_react_native_fallback :
    (fallback_estimation c7_description none).complexity = "High" ∧
    (fallback_estimation c7_description none).total_hours = 300 := by
  have h1 : contains_any (lc c7_description) rn_trigger_keywords = true := by decide
  have h2 : contains_any (lc c7_description) native_platform_keywords = true := by decide
  have h3 : contains_any (lc c7_description) fallback_enterprise_keywords = false := by decide
  simp only [fallback_estimation, fallback_base, h1, h2, h3, if_true, if_false,
    Bool.false_eq_true, apply_blackduck_capping, apply_status_based_filtering,
    is_blackduck_ticket, jira_text_of]
  norm_num
  decide

/-- C8: every description containing an enterprise-integration term and none
of the react-native trigger words makes the rule-based fallback return
complexity "Medium" with 80 base hours, regardless of the keyword score. -/
theorem c8_enterprise_override (d : String)
    (hE : contains_any (lc d) fallback_enterprise_keywords = true)
    (hT : contains_any (lc d) rn_trigger_keywords = false) :
    (fallback_estimation d none).complexity = "Medium" ∧
    (fallback_estimation d none).total_hours = 80 := by
  simp only [fallback_estimation, fallback_base, hE, hT, if_true, if_false,
    Bool.false_eq_true, apply_blackduck_capping, apply_status_based_filtering,
    is_blackduck_ticket, jira_text_of]
  norm_num
  decide

/-- Witness for C8: a description whose keyword score alone is at least 4
(and would otherwise score High/160) still yields Medium/80. -/
theorem c8_witness :
    (4 ≤ fallback_score (lc c8_description) none) ∧
    (fallback_estimation c8_description none).complexity = "Medium" ∧
    (fallback_estimation c8_description none).total_hours = 80 := by
  refine ⟨?_, c8_enterprise_override c8_description (by decide) (by decide)⟩
  have hs : count_contained (lc c8_description) high_keywords = 7 := by decide
  have hm : count_contained (lc c8_description) medium_keywords = 0 := by decide
  simp only [fallback_score, hs, hm]
  norm_num

/-- C9: `get_complexity_adjustments` returns an empty mapping whenever fewer
than 3 history records have recorded actual hours; with 3 or more, a tier
appears in the mapping exactly when it has at least 2 completed records, and
its factor is the mean of actual/estimated over that tier's records.  (The
hypothesis on `estimated_hours` marks the domain on which the rational
embedding of the division is faithful to Python.) -/
theorem c9_complexity_adjustments (h : List HistoryRecord)
    (hz : ∀ r ∈ completed_records h, r.estimated_hours ≠ 0) :
    ((completed_records h).length < 3 → get_complexity_adjustments h = []) ∧
    (3 ≤ (completed_records h).length →
      ∀ cx ∈ (["Low", "Medium", "High"] : List String),
        (get_complexity_adjustments h).lookup cx =
          if 2 ≤ ((completed_records h).filter (fun r => r.complexity == cx)).length then
            some (mean_q (((completed_records h).filter (fun r => r.complexity == cx)).map
              (fun r => r.actual_hours.getD 0 / r.estimated_hours)))
          else none) := by
  constructor
  · intro hlt
    simp [get_complexity_adjustments, hlt]
  · intro h3 cx hcx
    have hnl : ¬ (completed_records h).length < 3 := not_lt.2 h3
    simp only [List.mem_cons, List.mem_singleton, List.not_mem_nil, or_false] at hcx
    rcases hcx with rfl | rfl | rfl <;>
      by_cases hL : 2 ≤ ((completed_records h).filter (fun r => r.complexity == "Low")).length <;>
      by_cases hM : 2 ≤ ((completed_records h).filter (fun r => r.complexity == "Medium")).length <;>
      by_cases hH : 2 ≤ ((completed_records h).filter (fun r => r.complexity == "High")).length <;>
      simp [get_complexity_adjustments, if_neg hnl, List.filterMap, hL, hM, hH, List.lookup]

/-- Witness for C9: a two-completed-record history (one tier with 2) yields
an empty mapping, and a three-completed-record history yields the Low-tier
mean 1.0 while omitting the single-record Medium tier. -/
theorem c9_witness :
    get_complexity_adjustments c9_small = [] ∧
    (get_complexity_adjustments c9_history).lookup "Low" = some 1 ∧
    (get_complexity_adjustments c9_history).lookup "Medium" = none := by
  have hz1 : ∀ r ∈ completed_records c9_small, r.estimated_hours ≠ 0 := by
    have hc : completed_records c9_small = [c9r1, c9r2] := rfl
    rw [hc]
    intro r hr
    rcases List.mem_cons.1 hr with rfl | hr2
    · norm_num [c9r1]
    · rcases List.mem_singleton.1 hr2 with rfl
      norm_num [c9r2]
  have hz2 : ∀ r ∈ completed_records c9_history, r.estimated_hours ≠ 0 := by
    have hc : completed_records c9_history = [c9r1, c9r2, c9r3] := rfl
    rw [hc]
    intro r hr
    rcases List.mem_cons.1 hr with rfl | hr2
    · norm_num [c9r1]
    · rcases List.mem_cons.1 hr2 with rfl | hr3
      · norm_num [c9r2]
      · rcases List.mem_singleton.1 hr3 with rfl
        norm_num [c9r3]
  refine ⟨?_, ?_, ?_⟩
  · exact (c9_complexity_adjustments c9_small hz1).1 (by decide)
  · have key := (c9_complexity_adjustments c9_history hz2).2 (by decide) "Low" (by simp)
    have hf : (completed_records c9_history).filter (fun r => r.complexity == "Low") = [c9r1, c9r2] := rfl
    rw [hf] at key
    rw [key]
    norm_num [mean_q, c9r1, c9r2]
  · have key := (c9_complexity_adjustments c9_history hz2).2 (by decide) "Medium" (by simp)
    have hf : (completed_records c9_history).filter (fun r => r.complexity == "Medium") = [c9r3] := rfl
    rw [hf] at key
    rw [key]
    norm_num

/-- C10: the accuracy computation divides by `actual_hours` unguarded, so
`record_estimation` with `actual_hours = 0` and `update_actual_hours` with 0
on a ticket that has a matching record raise `ZeroDivisionError` (modelled as
`none`) instead of returning; both operations are well-defined exactly when
`actual_hours` is nonzero (or, for updates, when no record matches). -/
theorem c10_zero_actual_hours_raises :
    (∀ (h : List HistoryRecord) (t : String) (est : ℚ) (cx : String) (ph : Phases)
        (m d : String), record_estimation h t est cx ph m d (some 0) = none) ∧
    (∀ (h : List HistoryRecord) (t : String) (est : ℚ) (cx : String) (ph : Phases)
        (m d : String) (a : ℚ), a ≠ 0 →
        (record_estimation h t est cx ph m d (some a)).isSome = true) ∧
    (∀ (h : List HistoryRecord) (t : String) (est : ℚ) (cx : String) (ph : Phases)
        (m d : String), (record_estimation h t est cx ph m d none).isSome = true) ∧
    (∀ (h : List HistoryRecord) (t : String), (∃ r ∈ h, r.jira_ticket = t) →
        update_actual_hours h t 0 = none) ∧
    (∀ (h : List HistoryRecord) (t : String), (∀ r ∈ h, r.jira_ticket ≠ t) →
        update_actual_hours h t 0 = some (h, false)) ∧
    (∀ (h : List HistoryRecord) (t : String) (a : ℚ), a ≠ 0 →
        (update_actual_hours h t a).isSome = true) := by
  refine ⟨?_, ?_, ?_, ?_, ?_, ?_⟩
  · intro h t est cx ph m d
    simp [record_estimation]
  · intro h t est cx ph m d a ha
    simp [record_estimation, ha]
  · intro h t est cx ph m d
    simp [record_estimation]
  · intro h t hm
    have : ∃ r ∈ h.reverse, r.jira_ticket = t := by
      rcases hm with ⟨r, hr, hrt⟩
      exact ⟨r, List.mem_reverse.2 hr, hrt⟩
    simp [update_actual_hours, update_from_newest_none_of_mem h.reverse t this]
  · intro h t hm
    have : ∀ r ∈ h.reverse, r.jira_ticket ≠ t := fun r hr => hm r (List.mem_reverse.1 hr)
    simp [update_actual_hours, update_from_newest_no_match h.reverse t 0 this]
  · intro h t a ha
    simp only [update_actual_hours]
    rcases ho : update_from_newest h.reverse t a with _ | ⟨l2, b⟩
    · have := update_from_newest_isSome h.reverse t a ha
      rw [ho] at this; simp at this
    · simp

/-- Witness for C10 on a one-record history. -/
theorem c10_witness :
    (record_estimation [] "T-1" 10 "Low" ⟨1, 2, 3, 4, 0⟩ "m" "d" (some 0) = none) ∧
    (update_actual_hours [{ jira_ticket := "T-1", estimated_hours := 10, complexity := "Low" }] "T-1" 0 = none) ∧
    ((update_actual_hours [{ jira_ticket := "T-1", estimated_hours := 10, complexity := "Low" }] "T-1" 5).isSome = true) :=
  ⟨c10_zero_actual_hours_raises.1 [] "T-1" 10 "Low" ⟨1, 2, 3, 4, 0⟩ "m" "d",
   c10_zero_actual_hours_raises.2.2.2.1 _ "T-1" ⟨_, List.mem_singleton.2 rfl, rfl⟩,
   c10_zero_actual_hours_raises.2.2.2.2.2 _ "T-1" 5 (by norm_num)⟩

